import Mathlib

/-!
Shallow embedding of the session / frame-delivery coordinator of
`src/app.py` (Real-Time-Latent-Consistency-Model).

Modelling conventions:
- Decoded PIL images are opaque values, modelled as `Nat` ids.
- The per-session `asyncio.Queue()` is a FIFO list: `put` appends at the
  back, `get` takes the front; an empty queue means a `get` suspends.
- Python floats (wall-clock times, the TIMEOUT value) are modelled as `Rat`.
- `user_queue_map` is an association list from the uid string to the
  session record, mirroring the Python dict.
- JSON messages sent over the websocket are modelled by the `JsonMsg`
  record with the exact status / message strings from the source.
-/

namespace App

/-- Decoded image (opaque in the coordinator; the model names them by id). -/
abbrev Image := Nat

/-- Raw binary websocket frame before decoding. -/
abbrev Bytes := List Nat

/-- Pydantic model `InputParams` (app.py lines 78-82).  Python floats are
modelled as rationals. -/
structure InputParams where
  seed : Int
  prompt : String
  strength : Rat
  guidance_scale : Rat
deriving DecidableEq, Repr

/-- One entry of `user_queue_map` (app.py lines 102-105): the per-session
`asyncio.Queue` and the bound generation parameters. -/
structure Session where
  queue : List Image
  params : InputParams
deriving DecidableEq, Repr

/-- The process-wide `user_queue_map` (app.py line 41): uid -> session. -/
abbrev Registry := List (String × Session)

/-- Global admission cap, `MAX_QUEUE_SIZE = 4` (app.py line 22); the spec
calls it MAX_SESSIONS. -/
def MAX_QUEUE_SIZE : Nat := 4

/-- `TIMEOUT = float(os.environ.get("TIMEOUT", 0))` (app.py line 23): an
unset environment variable yields 0, i.e. the timeout is disabled. -/
def TIMEOUTval (env : Option Rat) : Rat :=
  match env with
  | none => 0
  | some t => t

/-- Dict lookup `user_queue_map[uid]` viewed as a partial lookup. -/
def lookup (reg : Registry) (uid : String) : Option Session :=
  (reg.find? (fun p => p.1 == uid)).map Prod.snd

/-- JSON message sent to the client over the websocket. -/
structure JsonMsg where
  status : String
  message : String
  userId : Option String
deriving DecidableEq, Repr

/-- FIFO `queue.put` on the unbounded asyncio queue (never blocks). -/
def queuePut (q : List Image) (img : Image) : List Image := q ++ [img]

/-- Render-loop side `await queue.get()` (app.py line 143): `none` means the
caller suspends on an empty queue; otherwise the front element is removed
and returned. -/
def queueGet : List Image → Option (Image × List Image)
  | [] => none
  | x :: rest => some (x, rest)

/-- The drain loop `while not queue.empty(): queue.get_nowait()`
(app.py lines 175-179 and 115-119), written as the loop runs: it removes
elements one at a time until the queue is empty. -/
def drain : List Image → List Image
  | [] => []
  | _ :: rest => drain rest

/-- Ingest of one decoded frame (app.py lines 175-180): drain any
unconsumed backlog, then put the fresh image. -/
def ingestPut (q : List Image) (img : Image) : List Image :=
  queuePut (drain q) img

/-- Outcome of one iteration of the `handle_websocket_data` receive loop
after a successful put (app.py lines 181-190). -/
inductive StepOutcome
  | continueLoop (q : List Image)
  | timedOut (sent : JsonMsg) (closed : Bool) (q : List Image)
deriving DecidableEq, Repr

/-- One iteration of the streaming loop of `handle_websocket_data`
(app.py lines 171-190) for an already-decoded frame: drain-then-put, then
the opportunistic timeout check `TIMEOUT > 0 and time.time() - last_time >
TIMEOUT`; on timeout the handler sends the timeout notice, closes the
websocket and returns. -/
def ingestStep (timeout : Rat) (q : List Image) (img : Image)
    (now lastTime : Rat) (uid : String) : StepOutcome :=
  let q' := ingestPut q img
  if timeout > 0 ∧ now - lastTime > timeout then
    .timedOut ⟨"timeout", "Your session has ended", some uid⟩ true q'
  else
    .continueLoop q'

/-- How a run of the `handle_websocket_data` receive loop ends. -/
inductive IngestExit
  /-- The modelled inbound trace is exhausted (the client stopped). -/
  | clientEnded
  /-- An exception escaped the loop body (e.g. `Image.open` failing on a
  corrupt frame) and was caught by the `except Exception` handler at
  app.py lines 192-194: it is logged and the handler returns. -/
  | decodeErrorLogged
deriving DecidableEq, Repr

/-- Run of the `handle_websocket_data` receive loop (app.py lines 170-194)
over a finite inbound trace, with TIMEOUT disabled (= 0).  `decode` models
`Image.open(io.BytesIO(data))`: `none` means the call raises.  The
`except` clause sits outside the `while True`, so the first decode failure
ends the loop with the queue as it was. -/
def ingestRun (decode : Bytes → Option Image) :
    List Bytes → List Image → List Image × IngestExit
  | [], q => (q, .clientEnded)
  | b :: rest, q =>
    match decode b with
    | none => (q, .decodeErrorLogged)
    | some img => ingestRun decode rest (ingestPut q img)

/-- Result of the teardown `finally` block of `websocket_endpoint`
(app.py lines 110-119): `queue_value = user_queue_map.pop(uid, None)` then
`queue = queue_value.get("queue", None)`.  When the uid is absent, `pop`
returns `None` and the attribute access on `None` raises `AttributeError`
(modelled as `.error`).  Otherwise the entry is removed and the queue of the session is drained; the pair returned is the registry after the pop and the
shared queue contents after the drain. -/
def teardownFinally (reg : Registry) (uid : String) :
    Except String (Registry × List Image) :=
  match lookup reg uid with
  | none => .error "AttributeError"
  | some sess =>
      .ok (reg.filter (fun p => !(p.1 == uid)), drain sess.queue)

/-- Websocket side effects performed before `handle_websocket_data` runs. -/
structure WsEffects where
  sent : List JsonMsg
  closed : Bool
deriving DecidableEq, Repr

/-- Outcome of the admission phase of `websocket_endpoint`. -/
inductive AdmitOutcome
  | rejected (io : WsEffects)
  | admitted (uid : String) (io : WsEffects)
deriving DecidableEq, Repr

/-- Admission phase of `websocket_endpoint` (app.py lines 86-99): after
`accept`, if `len(user_queue_map) >= MAX_QUEUE_SIZE` the handler sends the
server-full error and closes without generating a uid or touching the
registry; otherwise it generates a fresh uid and sends the success
handshake.  The registry insert itself happens only later, after the
client parameter message (see `connInsert`). -/
def wsAdmit (reg : Registry) (freshUid : String) : AdmitOutcome × Registry :=
  if reg.length ≥ MAX_QUEUE_SIZE then
    (.rejected ⟨[⟨"error", "Server is full", none⟩], true⟩, reg)
  else
    (.admitted freshUid ⟨[⟨"success", "Connected", some freshUid⟩], false⟩, reg)

/-- Phase of a single connection pass through `websocket_endpoint`. -/
inductive Phase
  | connected
  | checkedOk
  | inserted
  | rejectedFull
deriving DecidableEq, Repr

/-- Per-connection state while `websocket_endpoint` is executing. -/
structure Conn where
  uid : String
  params : InputParams
  phase : Phase
deriving DecidableEq, Repr

/-- The capacity check at app.py line 88, as one atomic step of a
connection.  The `await send_json` / `await receive_json` calls between
this check and the insert at line 102 are suspension points, so other
connections can interleave between `connCheck` and `connInsert`. -/
def connCheck (reg : Registry) (c : Conn) : Conn :=
  if reg.length ≥ MAX_QUEUE_SIZE then
    { c with phase := .rejectedFull }
  else
    { c with phase := .checkedOk }

/-- The registry insert at app.py lines 102-105, performed after the
client parameter message arrives, as one atomic step. -/
def connInsert (reg : Registry) (c : Conn) : Registry × Conn :=
  if c.phase = .checkedOk then
    ((c.uid, ⟨[], c.params⟩) :: reg, { c with phase := .inserted })
  else
    (reg, c)

/-- Responses the `stream` endpoint (app.py lines 128-160) can produce. -/
inductive StreamResponse
  /-- FastAPI rejects the request in parameter validation: the raw path
  segment does not parse as a UUID, the handler body never runs. -/
  | validationError
  /-- `user_queue_map[uid]` raised `KeyError` (uid absent); FastAPI turns
  the unhandled exception into an internal server error. -/
  | keyError
  /-- The `return HTTPException(status_code=404, ...)` branch at app.py
  lines 138-139. -/
  | httpNotFound
  /-- The `StreamingResponse(generate(), ...)` multipart stream: the
  render loop is started over the queue of the session and parameters. -/
  | streaming (params : InputParams) (q : List Image)
deriving DecidableEq, Repr

/-- Python object truthiness of an `asyncio.Queue` instance: the class
defines neither `__bool__` nor `__len__`, so `not queue` is always
`False`, whatever the queue holds. -/
def queueTruthy (_q : List Image) : Bool := true

/-- Body of the `stream` endpoint (app.py lines 128-160) after parameter
validation: `user_queue_map[uid]` raises `KeyError` when the uid is
absent; otherwise the guard `if not queue` is evaluated on the queue
object (always falsy negation, see `queueTruthy`) and the streaming
response is returned. -/
def streamHandler (reg : Registry) (uid : String) : StreamResponse :=
  match lookup reg uid with
  | none => .keyError
  | some sess =>
      if queueTruthy sess.queue then
        .streaming sess.params sess.queue
      else
        .httpNotFound

/-- Modelled from the spec and the FastAPI contract for the declared
parameter type `user_id: uuid.UUID` (app.py line 129): the framework
parses the raw path segment before invoking the handler body, and a
segment that fails to parse is answered with a validation error without
running the handler.  The parser itself lives in the framework, so it is
kept abstract. -/
def streamRoute (parseUUID : String → Option String) (reg : Registry)
    (raw : String) : StreamResponse :=
  match parseUUID raw with
  | none => .validationError
  | some uid => streamHandler reg uid

/-- Observable effects of one iteration of the render loop `generate`
(app.py lines 141-156). -/
structure RenderOut where
  calledTransform : Bool
  chunk : Option String
  exitsLoop : Bool
deriving DecidableEq, Repr

/-- One iteration of the render loop `generate` (app.py lines 141-156) on
the value obtained from the queue.  `transform` models `predict` (returns
`none` on nsfw rejection, app.py lines 63-64) and `encode` models the JPEG
serialisation to bytes.  A `None` frame is skipped by `continue` without
calling `predict` and without yielding; the loop never exits on its own. -/
def renderStep (transform : Image → Option Image) (encode : Image → String)
    (got : Option Image) : RenderOut :=
  match got with
  | none => ⟨false, none, false⟩
  | some img =>
    match transform img with
    | none => ⟨true, none, false⟩
    | some out =>
      let fd := encode out
      ⟨true,
        if fd.length > 0 then
          some ("--frame\r\nContent-Type: image/jpeg\r\n\r\n" ++ fd ++ "\r\n")
        else none,
        false⟩

/-- Concrete parameter record for concrete evaluations. -/
def pDemo : InputParams := ⟨2159232, "a painting", 1/2, 8⟩

/-- Concrete session record for concrete evaluations. -/
def sDemo : Session := ⟨[], pDemo⟩

end App

namespace App

theorem drain_eq_nil (q : List Image) : drain q = [] := by
  induction q with
  | nil => rfl
  | cons x rest ih => simpa [drain] using ih

theorem ingestPut_eq (q : List Image) (img : Image) :
    ingestPut q img = [img] := by
  simp [ingestPut, queuePut, drain_eq_nil]

theorem lookup_filter_ne (reg : Registry) (uid : String) :
    lookup (reg.filter (fun p => !(p.1 == uid))) uid = none := by
  unfold lookup
  rw [Option.map_eq_none', List.find?_eq_none]
  intro p hp
  have h := List.of_mem_filter hp
  simp only [Bool.not_eq_true'] at h
  simp [h]

/-- C1: latest-wins overwrite of the Frame Slot.  After the ingest handler
performs put(a) then put(b) with no intervening get, the render loop
next get returns b with an empty residual queue, and the older frame a is
no longer anywhere in the queue, so it can never be handed to the
transform collaborator. -/
theorem C1_latest_wins (q : List Image) (a b : Image) (h : a ≠ b) :
    queueGet (ingestPut (ingestPut q a) b) = some (b, []) ∧
    a ∉ ingestPut (ingestPut q a) b := by
  constructor
  · simp [ingestPut_eq, queueGet]
  · simp [ingestPut_eq]
    exact h

theorem C1_latest_wins_witness :
    queueGet (ingestPut (ingestPut [] 0) 1) = some (1, []) ∧
    0 ∉ ingestPut (ingestPut [] 0) 1 :=
  C1_latest_wins [] 0 1 (by decide)

/-- C2: the capacity check (app.py line 88) and the registry insert
(app.py line 102) are separated by awaited websocket calls, so two
admissions can interleave: starting from a registry of 3 sessions with
MAX_QUEUE_SIZE = 4, connections A and B both pass the check before either
inserts, then both insert, leaving MAX_QUEUE_SIZE + 1 = 5 registered
sessions — the capacity invariant is violated. -/
theorem C2_capacity_race :
    ((connInsert
        (connInsert [("s1", sDemo), ("s2", sDemo), ("s3", sDemo)]
          (connCheck [("s1", sDemo), ("s2", sDemo), ("s3", sDemo)]
            ⟨"A", pDemo, .connected⟩)).1
        (connCheck [("s1", sDemo), ("s2", sDemo), ("s3", sDemo)]
          ⟨"B", pDemo, .connected⟩)).1).length = MAX_QUEUE_SIZE + 1 := by
  decide

/-- C3 counterexample: teardown of a registered session with a pending
frame drains the shared queue but emits no close signal, so a future get
on the queue finds it empty and suspends (`queueGet` yields `none`)
instead of returning a terminal closed value — refuting the claim that
after teardown a pending or future get returns the terminal signal. -/
theorem C3_counterexample :
    teardownFinally [("u", ⟨[5], pDemo⟩)] "u" = .ok ([], []) ∧
    queueGet ([] : List Image) = none := by
  exact ⟨rfl, rfl⟩

/-- C3 (amended): on a terminal path where the session is still
registered, the finally-block teardown removes the registry entry and
drains the shared queue; no close operation exists, so a pending or
future get on the drained queue suspends (yields no frame) rather than
receiving a terminal closed signal. -/
theorem C3_teardown_drains_no_close (reg : Registry) (uid : String)
    (s : Session) (h : lookup reg uid = some s) :
    teardownFinally reg uid =
      .ok (reg.filter (fun p => !(p.1 == uid)), []) ∧
    lookup (reg.filter (fun p => !(p.1 == uid))) uid = none ∧
    queueGet ([] : List Image) = none := by
  refine ⟨?_, lookup_filter_ne reg uid, rfl⟩
  simp [teardownFinally, h, drain_eq_nil]

theorem C3_teardown_witness :
    teardownFinally [("w", ⟨[3, 4], pDemo⟩)] "w" =
      .ok (([("w", (⟨[3, 4], pDemo⟩ : Session))].filter
        (fun p => !(p.1 == "w"))), []) ∧
    lookup ([("w", (⟨[3, 4], pDemo⟩ : Session))].filter
      (fun p => !(p.1 == "w"))) "w" = none ∧
    queueGet ([] : List Image) = none :=
  C3_teardown_drains_no_close [("w", ⟨[3, 4], pDemo⟩)] "w" ⟨[3, 4], pDemo⟩ rfl

/-- C4 counterexample: with a decoder that fails on the empty frame, the
receive loop run over the trace bad-frame-then-good-frame ends with the
exception logged and the handler returning; the queue stays empty and the
later good frame is never ingested — refuting the claim that the session
remains streaming and continues to accept subsequent frames. -/
theorem C4_counterexample :
    ingestRun (fun b => if b.isEmpty then none else some 7) [[], [1]] [] =
      ([], .decodeErrorLogged) := by
  decide

/-- C4 (amended): a frame that fails to decode is logged and terminates
the ingest loop: the handler returns with the queue unchanged and the
remaining frames of the inbound trace are never processed; the session
does not remain streaming. -/
theorem C4_decode_failure_terminates (decode : Bytes → Option Image)
    (b : Bytes) (rest : List Bytes) (q : List Image)
    (h : decode b = none) :
    ingestRun decode (b :: rest) q = (q, .decodeErrorLogged) := by
  simp [ingestRun, h]

theorem C4_decode_failure_witness :
    ingestRun (fun _ => (none : Option Image)) [[0]] [] =
      ([], .decodeErrorLogged) :=
  C4_decode_failure_terminates (fun _ => none) [0] [] [] rfl

/-- C5: a stream request whose well-formed uuid is absent from the registry
reaches the subscript `user_queue_map[uid]` and raises KeyError, which the
framework answers as an internal server error — not the not-found response
of the unreachable branch at app.py lines 138-139 — and no streaming
response is started. -/
theorem C5_unknown_session_keyerror :
    streamHandler [("11111111-2222-3333-4444-555555555555", sDemo)]
        "7c9e6679-7425-40de-944b-e07fc1f90ae7" = .keyError ∧
    (StreamResponse.keyError ≠ .httpNotFound) := by
  exact ⟨rfl, by decide⟩

/-- C6: the removal performed by the finally block is not idempotent:
removing an absent id makes `pop` return `None` and the subsequent
attribute access raise AttributeError, and remove followed by remove
succeeds the first time and raises the second time. -/
theorem C6_remove_absent_raises :
    teardownFinally [] "ghost" = .error "AttributeError" ∧
    teardownFinally [("u", ⟨[], pDemo⟩)] "u" = .ok ([], []) ∧
    teardownFinally [] "u" = .error "AttributeError" := by
  exact ⟨rfl, rfl, rfl⟩

/-- C7: with TIMEOUT unset the configured value is 0 and the loop never
times out; with TIMEOUT = t > 0, after a successful put, when the elapsed
time since the handler start exceeds t the handler sends the
status-timeout notice carrying the message about the session having ended
and the uid, closes the websocket and returns, after which the caller
finally block performs teardown. -/
theorem C7_timeout_behaviour (t now lastTime : Rat) (q : List Image)
    (img : Image) (uid : String) :
    TIMEOUTval none = 0 ∧
    ingestStep 0 q img now lastTime uid = .continueLoop (ingestPut q img) ∧
    (t > 0 → now - lastTime > t →
      ingestStep t q img now lastTime uid =
        .timedOut ⟨"timeout", "Your session has ended", some uid⟩ true
          (ingestPut q img)) := by
  refine ⟨rfl, ?_, ?_⟩
  · simp [ingestStep]
  · intro ht helapsed
    simp [ingestStep, ht, helapsed]

theorem C7_timeout_witness :
    ingestStep 1 [] 0 3 1 "u" =
      .timedOut ⟨"timeout", "Your session has ended", some "u"⟩ true
        (ingestPut [] 0) :=
  (C7_timeout_behaviour 1 3 1 [] 0 "u").2.2 (by norm_num) (by norm_num)

/-- C8: with the registry at capacity, the admission phase sends exactly
the status-error message saying the server is full, closes the
connection, leaves the registry unmutated, and its outcome does not
depend on the fresh uid argument — no session id is generated and no
entry is created on the rejection path. -/
theorem C8_reject_at_capacity (reg : Registry) (u u' : String)
    (h : reg.length ≥ MAX_QUEUE_SIZE) :
    wsAdmit reg u =
      (.rejected ⟨[⟨"error", "Server is full", none⟩], true⟩, reg) ∧
    wsAdmit reg u = wsAdmit reg u' := by
  constructor <;> simp [wsAdmit, h]

theorem C8_reject_witness :
    wsAdmit [("a", sDemo), ("b", sDemo), ("c", sDemo), ("d", sDemo)]
        "fresh" =
      (.rejected ⟨[⟨"error", "Server is full", none⟩], true⟩,
        [("a", sDemo), ("b", sDemo), ("c", sDemo), ("d", sDemo)]) ∧
    wsAdmit [("a", sDemo), ("b", sDemo), ("c", sDemo), ("d", sDemo)]
        "fresh" =
      wsAdmit [("a", sDemo), ("b", sDemo), ("c", sDemo), ("d", sDemo)]
        "other" :=
  C8_reject_at_capacity
    [("a", sDemo), ("b", sDemo), ("c", sDemo), ("d", sDemo)]
    "fresh" "other" (by decide)

/-- C9: a None value obtained from the queue is skipped by the render
loop: the iteration calls no transform, emits no chunk, and does not
exit the loop (None is neither a close signal nor a crash). -/
theorem C9_none_frame_skipped (transform : Image → Option Image)
    (encode : Image → String) :
    renderStep transform encode none = ⟨false, none, false⟩ := rfl

/-- C10: a raw path segment that the framework-level UUID parser rejects
is answered with a validation error; the response is computed without
consulting the registry (any two registries give the same response) and
no streaming response is started. -/
theorem C10_uuid_validated (parseUUID : String → Option String)
    (raw : String) (reg reg' : Registry) (h : parseUUID raw = none) :
    streamRoute parseUUID reg raw = .validationError ∧
    streamRoute parseUUID reg raw = streamRoute parseUUID reg' raw := by
  constructor <;> simp [streamRoute, h]

theorem C10_uuid_witness :
    streamRoute (fun _ => none) [] "zzz" = .validationError ∧
    streamRoute (fun _ => none) [] "zzz" =
      streamRoute (fun _ => none) [("u", sDemo)] "zzz" :=
  C10_uuid_validated (fun _ => none) "zzz" [] [("u", sDemo)] rfl

end App
